import Mathlib

/-!
Shallow embedding of `run_voice_input.py` (the voice-input launcher and test
dashboard) and proofs about its check-orchestration behaviour.

The script is deterministic glue around `subprocess.run`; everything the
operating system contributes to one spawned command (whether the executable
could be spawned, how long the process runs, its exit code, the bytes it
writes) is modelled as an explicit `ProcBehavior` value, and each entry point
of the script becomes a function of the command-line arguments and an
environment assigning a `ProcBehavior` to every command.
-/

namespace VoiceInput

/-- What the operating system does for one attempted spawn of a command:
either the executable cannot be spawned (`spawnFail = some cause`, Python's
`subprocess.run` raises `OSError`/`FileNotFoundError`), or a process runs for
`duration` seconds, exits with `exitCode`, and `outBy n` / `errBy n` give the
stdout/stderr text it has produced within its first `n` seconds (so the full
streams are `outBy duration` / `errBy duration`). -/
structure ProcBehavior where
  spawnFail : Option String
  duration : Nat
  exitCode : Int
  outBy : Nat → String
  errBy : Nat → String

/-- A Python exception escaping `subprocess.run`: `subprocess.TimeoutExpired`
(which carries the output captured before the child was terminated) or the
`OSError` raised when the executable cannot be spawned. -/
inductive PyExn where
  | timeoutExpired (stdout stderr : String)
  | osError (cause : String)
deriving DecidableEq, Repr

/-- The `CompletedProcess` value returned by a `subprocess.run` call that did
not raise: the child's exit code and its captured streams. -/
structure RunResult where
  returncode : Int
  stdout : String
  stderr : String
deriving DecidableEq, Repr

/-- `subprocess.run(cmd, timeout=t?, ...)` on a command whose behaviour is
`b`: spawn failure raises `OSError`; with a timeout `t` set, a process that
has not exited within `t` seconds is terminated and `TimeoutExpired` is
raised carrying the output captured so far; otherwise the completed process
is returned.  `Except.error` models a raised Python exception. -/
def subprocessRun (timeout : Option Nat) (b : ProcBehavior) : Except PyExn RunResult :=
  match b.spawnFail with
  | some cause => .error (.osError cause)
  | none =>
    match timeout with
    | some t =>
      if t < b.duration then
        .error (.timeoutExpired (b.outBy t) (b.errBy t))
      else
        .ok ⟨b.exitCode, b.outBy b.duration, b.errBy b.duration⟩
    | none => .ok ⟨b.exitCode, b.outBy b.duration, b.errBy b.duration⟩

/-- The two working directories the script ever passes to `subprocess.run`:
`PROJECT_ROOT` and `SRC_TAURI = PROJECT_ROOT / "src-tauri"`. -/
inductive Dir where
  | projectRoot
  | srcTauri
deriving DecidableEq, Repr

/- ── The four check commands (string literals of the script) ───────── -/

def rustTestsCmd : List String := ["cargo", "test", "--lib"]

def frontendLintCmd : List String := ["bun", "run", "lint"]

def typeCheckCmd : List String := ["bun", "x", "tsc", "--noEmit"]

def formatCheckCmd : List String := ["bun", "run", "format:check"]

/- ── Batch test runners (`--test`, `--test-rust` path) ──────────────── -/

/-- Common shape of `run_rust_tests` / `run_frontend_lint` /
`run_type_check` / `run_format_check`: `subprocess.run(cmd, cwd=..., capture_output=False)`
with no `timeout` argument and no `try`/`except`, then `return result.returncode == 0`.
A spawn failure therefore propagates as a raised exception (`Except.error`). -/
def batchCheck (b : ProcBehavior) : Except PyExn Bool :=
  (subprocessRun none b).map (fun r => decide (r.returncode = 0))

/-- `run_rust_tests()`: runs `["cargo", "test", "--lib"]` with `cwd=SRC_TAURI`. -/
def run_rust_tests (run : List String → ProcBehavior) : Except PyExn Bool :=
  batchCheck (run rustTestsCmd)

/-- `run_rust_tests` hard-codes `cwd=str(SRC_TAURI)`. -/
def run_rust_tests_cwd : Dir := Dir.srcTauri

/-- `run_frontend_lint()`: runs `["bun", "run", "lint"]` with `cwd=PROJECT_ROOT`. -/
def run_frontend_lint (run : List String → ProcBehavior) : Except PyExn Bool :=
  batchCheck (run frontendLintCmd)

/-- `run_type_check()`: runs `["bun", "x", "tsc", "--noEmit"]` with `cwd=PROJECT_ROOT`. -/
def run_type_check (run : List String → ProcBehavior) : Except PyExn Bool :=
  batchCheck (run typeCheckCmd)

/-- `run_format_check()`: runs `["bun", "run", "format:check"]` with `cwd=PROJECT_ROOT`. -/
def run_format_check (run : List String → ProcBehavior) : Except PyExn Bool :=
  batchCheck (run formatCheckCmd)

/-- The summary loop of `run_all_tests`: `all_passed` starts `True` and is set
`False` for every failed entry of the `results` dict. -/
def allPassed (results : List (String × Bool)) : Bool :=
  results.all (fun p => p.2)

/-- `run_all_tests()` up to its summary: calls the four runners in order,
building the `results` dict `{"Rust Tests": ..., "Frontend Lint": ...,
"Type Check": ..., "Format Check": ...}`.  Returns the list of checks whose
spawn was attempted together with either the raised exception (a runner has
no `try`/`except`, so the first spawn failure aborts the remaining checks) or
the completed results in insertion order. -/
def run_all_tests_core (run : List String → ProcBehavior) :
    List String × Except PyExn (List (String × Bool)) :=
  match run_rust_tests run with
  | .error x => (["Rust Tests"], .error x)
  | .ok r1 =>
    match run_frontend_lint run with
    | .error x => (["Rust Tests", "Frontend Lint"], .error x)
    | .ok r2 =>
      match run_type_check run with
      | .error x => (["Rust Tests", "Frontend Lint", "Type Check"], .error x)
      | .ok r3 =>
        match run_format_check run with
        | .error x =>
          (["Rust Tests", "Frontend Lint", "Type Check", "Format Check"], .error x)
        | .ok r4 =>
          (["Rust Tests", "Frontend Lint", "Type Check", "Format Check"],
           .ok [("Rust Tests", r1), ("Frontend Lint", r2),
                ("Type Check", r3), ("Format Check", r4)])

/-- `run_all_tests()`: the boolean it returns is the `all_passed` aggregate of
its results dict. -/
def run_all_tests (run : List String → ProcBehavior) :
    List String × Except PyExn Bool :=
  ((run_all_tests_core run).1, (run_all_tests_core run).2.map allPassed)

/- ── Prerequisite scan and `main` ───────────────────────────────────── -/

/-- The environment `main` runs against: which of the probed tools
`shutil.which` finds, and the behaviour of every command the script may
spawn. -/
structure Env where
  rustcFound : Bool
  cargoFound : Bool
  bunFound : Bool
  nodeFound : Bool
  run : List String → ProcBehavior

/-- `check_prerequisites()`: `all_ok` is set `False` exactly when `rustc`,
`cargo` or `bun` is not found; `node` and the VAD model only warn. -/
def check_prerequisites (e : Env) : Bool :=
  e.rustcFound && e.cargoFound && e.bunFound

/-- The parsed command-line flags of the script. -/
structure Args where
  frontend : Bool
  test : Bool
  testRust : Bool
  dashboard : Bool
  skipChecks : Bool

/-- How one invocation of `main()` ends, together with the list of checks
whose spawn was attempted before that point. -/
inductive MainResult where
  | exited (code : Int) (checksAttempted : List String)
  | uncaught (exn : PyExn) (checksAttempted : List String)
  | dashboardMode
  | frontendMode
  | tauriDevMode
deriving DecidableEq, Repr

/-- `main()`: unless `--skip-checks`, a failed prerequisite scan exits with
code 1 before any mode dispatch; `--test-rust` is dispatched before `--test`;
`--test` exits `0 if success else 1` where `success` is `run_all_tests()`;
the remaining modes launch the dashboard, the frontend server, or the Tauri
dev command.  An exception escaping a runner is an uncaught traceback. -/
def main (a : Args) (e : Env) : MainResult :=
  if !a.skipChecks && !check_prerequisites e then
    .exited 1 []
  else if a.testRust then
    match run_rust_tests e.run with
    | .ok passed => .exited (if passed then 0 else 1) ["Rust Tests"]
    | .error x => .uncaught x ["Rust Tests"]
  else if a.test then
    match run_all_tests e.run with
    | (attempted, .ok success) => .exited (if success then 0 else 1) attempted
    | (attempted, .error x) => .uncaught x attempted
  else if a.dashboard then .dashboardMode
  else if a.frontend then .frontendMode
  else .tauriDevMode

/- ── Dashboard (`--dashboard`, tkinter) ─────────────────────────────── -/

/-- The first row of dashboard buttons: `(label, command)` pairs passed to
`run_in_thread`.  The entries carry no working-directory component. -/
def dashboardButtons : List (String × List String) :=
  [("Run Rust Tests", ["cargo", "test", "--lib"]),
   ("Lint Frontend", ["bun", "run", "lint"]),
   ("Type Check", ["bun", "x", "tsc", "--noEmit"]),
   ("Format Check", ["bun", "run", "format:check"])]

/-- The `cwd` argument of the `subprocess.run` call inside `run_in_thread`:
`PROJECT_ROOT if "cargo" not in func else SRC_TAURI`, where `func` is the
command list, so Python's `in` is list membership. -/
def run_in_thread_cwd (func : List String) : Dir :=
  if !func.contains "cargo" then Dir.projectRoot else Dir.srcTauri

/-- How the `wrapper` body of `run_in_thread` classifies one execution, as
reported to the output pane and status bar.  `timedOut` carries the partial
output held by the caught `subprocess.TimeoutExpired`; `errored` carries the
message of any other caught exception. -/
inductive DashOutcome where
  | passed (stdout stderr : String)
  | failed (code : Int) (stdout stderr : String)
  | timedOut (stdout stderr : String)
  | errored (cause : String)
deriving DecidableEq, Repr

/-- The execution performed by `run_in_thread`'s worker:
`subprocess.run(func, cwd=..., capture_output=True, text=True, timeout=300)`
inside `try`/`except subprocess.TimeoutExpired`/`except Exception`, so every
invocation yields exactly one `DashOutcome` and no exception escapes. -/
def run_in_thread_exec (b : ProcBehavior) : DashOutcome :=
  match subprocessRun (some 300) b with
  | .ok r =>
    if r.returncode = 0 then .passed r.stdout r.stderr
    else .failed r.returncode r.stdout r.stderr
  | .error (.timeoutExpired o e) => .timedOut o e
  | .error (.osError c) => .errored c

/-- The number of dashboard worker threads currently executing each check
label.  `run_in_thread` starts a new daemon thread per call without
consulting any in-flight state, so a button press always increments the
count for its label; a worker's `wrapper` returning decrements it. -/
structure DashState where
  inflight : String → Nat

/-- The initial dashboard state: no check is running. -/
def dashInit : DashState := ⟨fun _ => 0⟩

/-- Pressing a check button: `run_in_thread` unconditionally executes
`threading.Thread(target=wrapper, daemon=True).start()`, adding one running
worker for that label. -/
def clickCheck (s : DashState) (label : String) : DashState :=
  ⟨fun l => if l = label then s.inflight l + 1 else s.inflight l⟩

/-- A worker for `label` finishing: its `wrapper` returns and the thread
exits. -/
def finishCheck (s : DashState) (label : String) : DashState :=
  ⟨fun l => if l = label then s.inflight l - 1 else s.inflight l⟩

/-- The `checks` list inside `run_all_thread` (the "Run All Checks" button):
three `(label, cmd)` pairs — there is no "Format Check" entry. -/
def run_all_thread_checks : List (String × List String) :=
  [("Rust Tests", ["cargo", "test", "--lib"]),
   ("Frontend Lint", ["bun", "run", "lint"]),
   ("Type Check", ["bun", "x", "tsc", "--noEmit"])]

/-- The `cwd` argument inside `run_all_thread`'s loop:
`SRC_TAURI if "cargo" in cmd else PROJECT_ROOT`. -/
def run_all_thread_cwd (cmd : List String) : Dir :=
  if cmd.contains "cargo" then Dir.srcTauri else Dir.projectRoot

/-- One iteration of `run_all_thread`'s loop:
`subprocess.run(cmd, cwd=..., capture_output=True, text=True, timeout=300)`
inside `try`/`except Exception`, recording `result.returncode == 0` on
completion and `False` when any exception (timeout included) was raised. -/
def run_all_thread_check (b : ProcBehavior) : Bool :=
  match subprocessRun (some 300) b with
  | .ok r => decide (r.returncode = 0)
  | .error _ => false

/-- The `results` dict built by `run_all_thread`'s loop over a `checks`
list: insertion order is loop order, values are the per-check booleans. -/
def run_all_thread_results (checks : List (String × List String))
    (run : List String → ProcBehavior) : List (String × Bool) :=
  checks.map (fun c => (c.1, run_all_thread_check (run c.2)))

/-- The aggregate of `run_all_thread`: `all_passed = all(results.values())`. -/
def run_all_thread_all_passed (checks : List (String × List String))
    (run : List String → ProcBehavior) : Bool :=
  allPassed (run_all_thread_results checks run)

/- ── Asset fetcher (`download_vad_model`) ───────────────────────────── -/

/-- The two transports `download_vad_model` can use: `curl -L -o <path> <url>`
and Python's `urllib.request.urlretrieve`. -/
inductive Transport where
  | curl
  | urllib
deriving DecidableEq, Repr

/-- The environment of one `download_vad_model` call: whether
`shutil.which("curl")` finds curl, the exit code of the curl invocation, and
whether `urllib.request.urlretrieve` succeeds (it raises otherwise). -/
structure FetchEnv where
  curlAvailable : Bool
  curlExit : Int
  urllibOk : Bool

/-- Result of one `download_vad_model` call: the boolean it returns, whether
the model file exists afterwards (a successful transport writes it; when the
call fails or short-circuits, existence is unchanged), and the transports
attempted over the network, in order. -/
structure FetchResult where
  ok : Bool
  presentAfter : Bool
  attempts : List Transport
deriving DecidableEq, Repr

/-- `download_vad_model()`: returns `True` at once if `VAD_MODEL_PATH.exists()`;
otherwise tries curl first when available (returning `True` on exit code 0),
falls through to `urllib.request.urlretrieve`, and returns `False` from the
`except` block when the retrieval raises. -/
def download_vad_model (present : Bool) (env : FetchEnv) : FetchResult :=
  if present then ⟨true, true, []⟩
  else if env.curlAvailable then
    if env.curlExit = 0 then ⟨true, true, [.curl]⟩
    else if env.urllibOk then ⟨true, true, [.curl, .urllib]⟩
    else ⟨false, false, [.curl, .urllib]⟩
  else if env.urllibOk then ⟨true, true, [.urllib]⟩
  else ⟨false, false, [.urllib]⟩

/- ── Concrete behaviours used by witnesses ──────────────────────────── -/

/-- A process that spawns, runs for one second and exits with `code`. -/
def demoBehavior (code : Int) : ProcBehavior :=
  ⟨none, 1, code, fun _ => "", fun _ => ""⟩

/-- An invocation of `--test` with prerequisite checks skipped. -/
def demoArgsTest : Args := ⟨false, true, false, false, true⟩

/-- Every probed tool present; every command exits 0. -/
def demoEnvAllPass : Env := ⟨true, true, true, true, fun _ => demoBehavior 0⟩

/-- `cargo test --lib` exits 101; every other command exits 0. -/
def demoEnvRustFails : List String → ProcBehavior :=
  fun cmd => if cmd = rustTestsCmd then demoBehavior 101 else demoBehavior 0

/-- `bun run format:check` exits 2; every other command exits 0. -/
def demoEnvFormatFails : List String → ProcBehavior :=
  fun cmd => if cmd = formatCheckCmd then demoBehavior 2 else demoBehavior 0

/-- An executable that cannot be spawned. -/
def demoCantSpawn : ProcBehavior :=
  ⟨some "No such file or directory", 0, 0, fun _ => "", fun _ => ""⟩

/-- Every command fails to spawn. -/
def demoSpawnFailEnv : List String → ProcBehavior := fun _ => demoCantSpawn

/-- A process that needs 301 seconds; within the first 300 seconds it has
produced only a prefix of its output. -/
def demoLong : ProcBehavior :=
  ⟨none, 301, 0,
   fun n => if 301 ≤ n then "full out" else "partial out",
   fun n => if 301 ≤ n then "full err" else "partial err"⟩

/-- `cargo` is not on the PATH; every check command would exit 0. -/
def demoEnvNoCargo : Env := ⟨true, false, true, true, fun _ => demoBehavior 0⟩

/- ── Helper lemmas ──────────────────────────────────────────────────── -/

lemma batchCheck_spawnOk (b : ProcBehavior) (h : b.spawnFail = none) :
    batchCheck b = .ok (decide (b.exitCode = 0)) := by
  simp [batchCheck, subprocessRun, h, Except.map]

lemma run_all_tests_core_spawnOk (run : List String → ProcBehavior)
    (h : ∀ cmd, (run cmd).spawnFail = none) :
    run_all_tests_core run =
      (["Rust Tests", "Frontend Lint", "Type Check", "Format Check"],
       .ok [("Rust Tests", decide ((run rustTestsCmd).exitCode = 0)),
            ("Frontend Lint", decide ((run frontendLintCmd).exitCode = 0)),
            ("Type Check", decide ((run typeCheckCmd).exitCode = 0)),
            ("Format Check", decide ((run formatCheckCmd).exitCode = 0))]) := by
  simp [run_all_tests_core, run_rust_tests, run_frontend_lint, run_type_check,
        run_format_check, batchCheck_spawnOk _ (h _)]

/- ── Claim theorems ─────────────────────────────────────────────────── -/

/-- C1: when the script is invoked with `--test` (and not `--test-rust`), the
prerequisite gate is passed (either `--skip-checks` or all tools present) and
every check command spawns, `main` runs the full check catalog (Rust Tests,
Frontend Lint, Type Check, Format Check) in batch mode and exits with code 0
if and only if every check in the resulting session passed, else 1. -/
theorem test_flag_runs_catalog_and_exit_code (a : Args) (e : Env)
    (ht : a.test = true) (hr : a.testRust = false)
    (hp : a.skipChecks = true ∨ check_prerequisites e = true)
    (hs : ∀ cmd, (e.run cmd).spawnFail = none) :
    main a e =
      .exited
        (if (e.run rustTestsCmd).exitCode = 0 ∧ (e.run frontendLintCmd).exitCode = 0 ∧
            (e.run typeCheckCmd).exitCode = 0 ∧ (e.run formatCheckCmd).exitCode = 0
         then 0 else 1)
        ["Rust Tests", "Frontend Lint", "Type Check", "Format Check"] := by
  have hgate : (!a.skipChecks && !check_prerequisites e) = false := by
    rcases hp with h | h <;> simp [h]
  have hcore := run_all_tests_core_spawnOk e.run hs
  simp [main, hgate, hr, ht, run_all_tests, hcore, Except.map, allPassed,
    and_assoc]

/-- C1 witness. -/
theorem test_flag_runs_catalog_and_exit_code_witness :
    main demoArgsTest demoEnvAllPass =
      .exited 0 ["Rust Tests", "Frontend Lint", "Type Check", "Format Check"] := by
  have h := test_flag_runs_catalog_and_exit_code demoArgsTest demoEnvAllPass
    rfl rfl (Or.inl rfl) (fun _ => rfl)
  simpa [demoEnvAllPass, demoBehavior] using h

/-- C2 counterexample: the dashboard working directory is not selected from a
per-check field — it is inferred by inspecting the command text.  Keeping the
check the same but changing only the command text flips the directory, and a
command that is not the Rust-test check but contains the element "cargo" is
assigned the Rust directory. -/
theorem cwd_inferred_from_text :
    run_in_thread_cwd ["cargo", "test", "--lib"] ≠
      run_in_thread_cwd ["echo", "test", "--lib"]
    ∧ run_in_thread_cwd ["bun", "run", "cargo"] = Dir.srcTauri := by decide

/-- C2 amended: in the dashboard, a check's working directory is inferred
from the command text — both `run_in_thread` and `run_all_thread` select
`SRC_TAURI` exactly when the command list contains the element "cargo" and
`PROJECT_ROOT` otherwise, and the registry entries carry no directory field;
on the actual catalog the Rust-test check runs in `SRC_TAURI` while every
other check runs in `PROJECT_ROOT`. -/
theorem cwd_selection_by_cargo_membership :
    (dashboardButtons.map (fun b => (b.1, run_in_thread_cwd b.2)) =
      [("Run Rust Tests", Dir.srcTauri), ("Lint Frontend", Dir.projectRoot),
       ("Type Check", Dir.projectRoot), ("Format Check", Dir.projectRoot)])
    ∧ (run_all_thread_checks.map (fun c => (c.1, run_all_thread_cwd c.2)) =
      [("Rust Tests", Dir.srcTauri), ("Frontend Lint", Dir.projectRoot),
       ("Type Check", Dir.projectRoot)])
    ∧ (∀ func : List String,
        run_in_thread_cwd func =
          if func.contains "cargo" then Dir.srcTauri else Dir.projectRoot)
    ∧ (∀ cmd : List String,
        run_all_thread_cwd cmd =
          if cmd.contains "cargo" then Dir.srcTauri else Dir.projectRoot) := by
  refine ⟨by decide, by decide, ?_, fun _ => rfl⟩
  intro func
  by_cases h : func.contains "cargo" <;> simp [run_in_thread_cwd, h]

/-- C2 amended witness. -/
theorem cwd_selection_by_cargo_membership_witness :
    run_in_thread_cwd ["cargo", "test", "--lib"] =
      (if (["cargo", "test", "--lib"] : List String).contains "cargo"
       then Dir.srcTauri else Dir.projectRoot) :=
  cwd_selection_by_cargo_membership.2.2.1 ["cargo", "test", "--lib"]

/-- C3 counterexample: a batch runner invocation of the executor on a command
whose executable cannot be spawned does not produce a result variant — the
`OSError` raised by `subprocess.run` propagates as a control-flow interrupt
(`Except.error`), because `run_rust_tests` has no exception handler. -/
theorem batch_spawn_error_raises :
    run_rust_tests demoSpawnFailEnv =
      Except.error (PyExn.osError "No such file or directory") := rfl

/-- C3 amended: every invocation of the dashboard executor (`run_in_thread`)
yields exactly one result variant with errors delivered as data — when the
executable cannot be spawned the execution's terminal outcome is the
`errored(cause)` variant; the batch runners, by contrast, let a spawn
failure propagate as a raised exception. -/
theorem run_in_thread_spawn_error_as_data (b : ProcBehavior) (c : String)
    (h : b.spawnFail = some c) :
    run_in_thread_exec b = DashOutcome.errored c := by
  simp [run_in_thread_exec, subprocessRun, h]

/-- C3 amended witness. -/
theorem run_in_thread_spawn_error_as_data_witness :
    run_in_thread_exec demoCantSpawn =
      DashOutcome.errored "No such file or directory" :=
  run_in_thread_spawn_error_as_data demoCantSpawn "No such file or directory" rfl

/-- C4: in a batch run in which every command spawns, every scheduled check
is executed and receives its own result — the recorded outcome of each check
is a function of that check's own exit code alone, so the failure of any one
check never cancels or blocks its siblings. -/
theorem batch_checks_independent (run : List String → ProcBehavior)
    (hs : ∀ cmd, (run cmd).spawnFail = none) :
    (run_all_tests_core run).2 =
      .ok [("Rust Tests", decide ((run rustTestsCmd).exitCode = 0)),
           ("Frontend Lint", decide ((run frontendLintCmd).exitCode = 0)),
           ("Type Check", decide ((run typeCheckCmd).exitCode = 0)),
           ("Format Check", decide ((run formatCheckCmd).exitCode = 0))] := by
  rw [run_all_tests_core_spawnOk run hs]

/-- C4 witness: the Rust tests fail, yet the other three checks still run
and each receives its own (passing) result. -/
theorem batch_checks_independent_witness :
    (run_all_tests_core demoEnvRustFails).2 =
      .ok [("Rust Tests", false), ("Frontend Lint", true),
           ("Type Check", true), ("Format Check", true)] := by
  rw [batch_checks_independent demoEnvRustFails
    (fun cmd => by by_cases h : cmd = rustTestsCmd <;>
      simp [demoEnvRustFails, h, demoBehavior])]
  rfl

/-- C5: for every session built by the dashboard's batch loop, the session is
complete (one result per scheduled check), the "all passed" aggregate is true
iff every recorded result is a pass, and the run over an empty check list is
immediately complete with a vacuously true aggregate. -/
theorem session_all_passed_iff (checks : List (String × List String))
    (run : List String → ProcBehavior) :
    ((run_all_thread_results checks run).length = checks.length)
    ∧ (run_all_thread_all_passed checks run = true ↔
        ∀ p ∈ run_all_thread_results checks run, p.2 = true)
    ∧ (run_all_thread_results [] run = [])
    ∧ (run_all_thread_all_passed [] run = true) := by
  refine ⟨by simp [run_all_thread_results], ?_, rfl, rfl⟩
  simp [run_all_thread_all_passed, allPassed, List.all_eq_true]

/-- C5 witness. -/
theorem session_all_passed_iff_witness :
    run_all_thread_all_passed run_all_thread_checks (fun _ => demoBehavior 0) = true :=
  ((session_all_passed_iff run_all_thread_checks (fun _ => demoBehavior 0)).2.1).mpr
    (by decide)

/-- C6: pressing the same check button again while a previous invocation is
still in flight is neither rejected nor serialized — `run_in_thread` starts a
new worker thread unconditionally, so two concurrent executions of the same
check result. -/
theorem dashboard_double_invoke :
    (clickCheck (clickCheck dashInit "Run Rust Tests")
      "Run Rust Tests").inflight "Run Rust Tests" = 2 := by
  simp [clickCheck, dashInit]

/-- C7: every capturing dashboard execution runs under a 300-second timeout;
a process that does not complete within 300 seconds is terminated and the
execution's result is `TimedOut`, carrying the stdout/stderr captured up to
termination. -/
theorem run_in_thread_timeout_result (b : ProcBehavior)
    (h1 : b.spawnFail = none) (h2 : 300 < b.duration) :
    run_in_thread_exec b = DashOutcome.timedOut (b.outBy 300) (b.errBy 300) := by
  simp [run_in_thread_exec, subprocessRun, h1, h2]

/-- C7 witness: a 301-second process times out and the result carries the
output prefix produced within the first 300 seconds. -/
theorem run_in_thread_timeout_result_witness :
    run_in_thread_exec demoLong =
      DashOutcome.timedOut "partial out" "partial err" := by
  rw [run_in_thread_timeout_result demoLong rfl (by decide)]
  rfl

/-- C8: `download_vad_model` is idempotent — when the model file already
exists it returns `True` with no network access, so a second call after a
successful first call does nothing; when the file is absent it tries curl
first and falls back to `urllib` on curl failure before returning `False`. -/
theorem download_vad_model_spec (env : FetchEnv) :
    (download_vad_model true env = ⟨true, true, []⟩)
    ∧ ((download_vad_model false env).ok = true →
        download_vad_model (download_vad_model false env).presentAfter env =
          ⟨true, true, []⟩)
    ∧ (env.curlAvailable = true → env.curlExit = 0 →
        download_vad_model false env = ⟨true, true, [Transport.curl]⟩)
    ∧ (env.curlAvailable = true → env.curlExit ≠ 0 → env.urllibOk = true →
        download_vad_model false env =
          ⟨true, true, [Transport.curl, Transport.urllib]⟩)
    ∧ (env.curlAvailable = true → env.curlExit ≠ 0 → env.urllibOk = false →
        download_vad_model false env =
          ⟨false, false, [Transport.curl, Transport.urllib]⟩) := by
  obtain ⟨ca, ce, uo⟩ := env
  by_cases h1 : ca = true <;> by_cases h2 : ce = 0 <;> by_cases h3 : uo = true <;>
    simp_all [download_vad_model]

/-- C8 witness: a present file is a no-op, and an absent file with failing
curl is fetched through the urllib fallback. -/
theorem download_vad_model_spec_witness :
    download_vad_model true ⟨true, 1, false⟩ = ⟨true, true, []⟩
    ∧ download_vad_model false ⟨true, 1, true⟩ =
        ⟨true, true, [Transport.curl, Transport.urllib]⟩ :=
  ⟨(download_vad_model_spec ⟨true, 1, false⟩).1,
   (download_vad_model_spec ⟨true, 1, true⟩).2.2.2.1 rfl (by decide) rfl⟩

/-- C9: the dashboard's "Run All Checks" aggregate schedules only Rust Tests,
Frontend Lint and Type Check — Format Check is excluded — while batch
`--test` runs all four; consequently, when only `bun run format:check` fails,
the interactive aggregate reports all-passed while the batch aggregate
reports a failure. -/
theorem interactive_excludes_format_check :
    run_all_thread_checks.map Prod.fst = ["Rust Tests", "Frontend Lint", "Type Check"]
    ∧ "Format Check" ∉ run_all_thread_checks.map Prod.fst
    ∧ (run_all_tests_core demoEnvFormatFails).1 =
        ["Rust Tests", "Frontend Lint", "Type Check", "Format Check"]
    ∧ run_all_thread_all_passed run_all_thread_checks demoEnvFormatFails = true
    ∧ (run_all_tests demoEnvFormatFails).2 = Except.ok false :=
  ⟨rfl, by decide, rfl, rfl, rfl⟩

/-- C10: without `--skip-checks`, a missing required tool (`rustc`, `cargo`
or `bun`) makes the process exit with code 1 before any mode dispatch, with
no check executed — regardless of the flags and of what the checks would
have reported. -/
theorem missing_tool_exits_before_checks (a : Args) (e : Env)
    (hskip : a.skipChecks = false)
    (hmiss : e.rustcFound = false ∨ e.cargoFound = false ∨ e.bunFound = false) :
    main a e = .exited 1 [] := by
  have hpre : check_prerequisites e = false := by
    rcases hmiss with h | h | h <;> simp [check_prerequisites, h]
  simp [main, hskip, hpre]

/-- C10 witness: `--test` with `cargo` missing exits 1 without executing a
single check, even though every check command would have exited 0. -/
theorem missing_tool_exits_before_checks_witness :
    main ⟨false, true, false, false, false⟩ demoEnvNoCargo = .exited 1 [] :=
  missing_tool_exits_before_checks ⟨false, true, false, false, false⟩
    demoEnvNoCargo rfl (Or.inr (Or.inl rfl))

end VoiceInput
